import Mathlib

/-!
A shallow embedding of the mail-goggles Chrome extension
(src/content.js and src/popup.js).

Pure helpers (`validateSettings`, `shouldBeActive`, `generateMathProblem`,
`jsParseInt`, `checkAllCorrect`, the two `loadSettings` models) are direct
translations of the corresponding functions.  The event-driven part of
content.js (the click interception hook, the challenge modal with its
countdown interval, debounce timeouts, submit handling, the success
teardown and the replay/cooldown dispatcher) is embedded as a single
step function `step : MGState → Ev → MGState × List Out`: every JavaScript
callback (event listener body, promise continuation, timer callback) runs
atomically on the single thread, so each one becomes one event of the
machine.  Pending timer handles are counters/flags in the state; firing a
timer is an event that is enabled only while its handle is pending.

The browser completes a click dispatch before any storage continuation
runs: `Ev.click` is only the wired listener's synchronous body, and
`clickDispatch` is the whole dispatch, whose default action — the host
page's own send handling — is never prevented, because the
`preventDefault`/`stopPropagation` calls of content.js lines 191-193 sit
inside the asynchronous `loadSettings().then` continuation and run only
after the dispatch is over.
-/

/-- Validated settings, content.js `EXTENSION_CONFIG.DEFAULT_SETTINGS` shape:
`{enabled, nightMode, numProblems, timeLimit}`. -/
structure Settings where
  enabled : Bool
  nightMode : Bool
  numProblems : Int
  timeLimit : Int
deriving DecidableEq, Repr

/-- A raw settings object as read from `chrome.storage`.  The boolean fields
model `Boolean(rawSettings.enabled)` / `Boolean(rawSettings.nightMode)`.
The numeric fields hold the result of `parseInt` on the stored value:
`none` stands for `NaN` (an absent or malformed stored value). -/
structure RawSettings where
  enabled : Bool
  nightMode : Bool
  numProblems : Option Int
  timeLimit : Option Int
deriving DecidableEq, Repr

/-- JavaScript `parseInt(raw) || d`: `NaN` (here `none`) is falsy and falls
to the default, and so does the number `0`, which is falsy in JavaScript. -/
def jsOrInt (x : Option Int) (d : Int) : Int :=
  match x with
  | none => d
  | some v => if v = 0 then d else v

/-- content.js lines 43-50 and popup.js lines 24-31 (the two copies are
identical):
`numProblems: Math.min(Math.max(parseInt(raw.numProblems) || 3, 1), 10)`,
`timeLimit: Math.min(Math.max(parseInt(raw.timeLimit) || 60, 0), 3600)`. -/
def validateSettings (raw : RawSettings) : Settings :=
  { enabled := raw.enabled
    nightMode := raw.nightMode
    numProblems := min (max (jsOrInt raw.numProblems 3) 1) 10
    timeLimit := min (max (jsOrInt raw.timeLimit 60) 0) 3600 }

/-- The documented defaults, `EXTENSION_CONFIG.DEFAULT_SETTINGS` and
`POPUP_CONFIG.DEFAULT_SETTINGS`: 3 problems, 60 second limit. -/
def defaultSettings : Settings :=
  { enabled := true, nightMode := false, numProblems := 3, timeLimit := 60 }

/-- content.js `shouldBeActive` (lines 86-110), with the wall-clock hour
(`new Date().getHours()`) passed explicitly.  `NIGHT_START = 22`,
`NIGHT_END = 8`. -/
def shouldBeActive (st : Settings) (hour : Nat) : Bool :=
  if !st.enabled then false
  else if !st.nightMode then true
  else
    let isNightTime := hour ≥ 22 || hour < 8
    if !isNightTime then false
    else true

/-- A generated problem, content.js `{question, answer}`. -/
structure Problem where
  question : String
  answer : Int
deriving DecidableEq, Repr

/-- content.js `generateMathProblem` (lines 116-145).  The random draws are
passed in: `r1`, `r2` feed `Math.floor(Math.random() * 25)` (so the operands
are `r1 % 25 + 5`, `r2 % 25 + 5`), `rop` feeds the operator index
`Math.floor(Math.random() * 3)`, and `r3`, `r4` feed the two fresh
multiplication draws `Math.floor(Math.random() * 12)` (operands `% 12 + 2`). -/
def generateMathProblem (r1 r2 rop r3 r4 : Nat) : Problem :=
  let num1 : Int := ((r1 % 25 : Nat) : Int) + 5
  let num2 : Int := ((r2 % 25 : Nat) : Int) + 5
  let opIndex := rop % 3
  if opIndex = 0 then
    { question := toString num1 ++ " + " ++ toString num2, answer := num1 + num2 }
  else if opIndex = 1 then
    let larger := max num1 num2
    let smaller := min num1 num2
    { question := toString larger ++ " - " ++ toString smaller, answer := larger - smaller }
  else
    let smallNum1 : Int := ((r3 % 12 : Nat) : Int) + 2
    let smallNum2 : Int := ((r4 % 12 : Nat) : Int) + 2
    { question := toString smallNum1 ++ " Ã— " ++ toString smallNum2,
      answer := smallNum1 * smallNum2 }

/-- The three operators of content.js `operators = ['+', '-', '*']`. -/
inductive Op
  | add
  | sub
  | mul
deriving DecidableEq, Repr

/-- The question string content.js builds for an operator and two operands
(the multiplication sign is the literal text of content.js line 140). -/
def renderQuestion : Op → Int → Int → String
  | Op.add, a, b => toString a ++ " + " ++ toString b
  | Op.sub, a, b => toString a ++ " - " ++ toString b
  | Op.mul, a, b => toString a ++ " Ã— " ++ toString b

/-- The arithmetic meaning of a displayed operator. -/
def denoteOp : Op → Int → Int → Int
  | Op.add, a, b => a + b
  | Op.sub, a, b => a - b
  | Op.mul, a, b => a * b

/-- Numeric value of a digit run. -/
def digitsVal (cs : List Char) : Nat :=
  cs.foldl (fun a c => a * 10 + (c.toNat - 48)) 0

/-- JavaScript `parseInt(s)` (radix 10): leading whitespace is skipped, an
optional sign is read, then the longest leading digit run is the value;
`none` stands for `NaN` (no leading digits at all). -/
def jsParseInt (s : String) : Option Int :=
  let cs := s.data.dropWhile (fun c => c.isWhitespace)
  match cs with
  | '-' :: rest =>
    let ds := rest.takeWhile (fun c => c.isDigit)
    if ds.isEmpty then none else some (-(digitsVal ds : Int))
  | '+' :: rest =>
    let ds := rest.takeWhile (fun c => c.isDigit)
    if ds.isEmpty then none else some ((digitsVal ds : Int))
  | _ =>
    let ds := cs.takeWhile (fun c => c.isDigit)
    if ds.isEmpty then none else some ((digitsVal ds : Int))

/-- One entry of content.js `checkAllAnswers` (lines 557-564): the input
passes iff `parseInt(input.value)` is not `NaN` and equals the stored
correct answer (`input.dataset.correct`, written from `problem.answer`).
In the source an entry with `userAnswer !== correctAnswer || isNaN(userAnswer)`
clears `allCorrect`. -/
def answerEntryOk (value : String) (correct : Int) : Bool :=
  match jsParseInt value with
  | none => false
  | some v => v == correct

/-- content.js `checkAllAnswers` success condition: `allCorrect` stays true
iff every (input value, stored correct answer) pair passes. -/
def checkAllCorrect (entries : List (String × Int)) : Bool :=
  entries.all (fun e => answerEntryOk e.1 e.2)

/-- How one call to `chrome.storage.sync.get` behaves, as seen by the
caller of content.js `loadSettings` (lines 56-80). -/
inductive StoreLoadOutcome
  | unavailable
  | callbackError
  | success (raw : RawSettings)
  | thrown
  | neverCalls
deriving DecidableEq, Repr

/-- content.js `loadSettings` (lines 56-80), given the module-level
`settings` value `current`: a missing storage API, a `runtime.lastError`
callback or a thrown exception resolve the promise with the last-known
`current`; a successful read resolves with `validateSettings result`.
The function installs no timeout, so a `get` whose callback never arrives
(`neverCalls`) never resolves the promise: `none`. -/
def contentLoadSettings (current : Settings) : StoreLoadOutcome → Option Settings
  | StoreLoadOutcome.unavailable => some current
  | StoreLoadOutcome.callbackError => some current
  | StoreLoadOutcome.success raw => some (validateSettings raw)
  | StoreLoadOutcome.thrown => some current
  | StoreLoadOutcome.neverCalls => none

/-- How one load behaves in popup.js `loadSettings` (lines 177-246): here a
`get` that does not call back within `LOAD_TIMEOUT` (3000 ms) is the
`timedOut` case, resolved by the timeout handler. -/
inductive PopupLoadOutcome
  | noStorage
  | timedOut
  | callbackError
  | success (raw : RawSettings)
  | thrown
deriving DecidableEq, Repr

/-- popup.js `loadSettings`: every outcome resolves the promise — the
timeout path resolves with the last-known settings, errors keep the
last-known settings, success installs the validated stored values. -/
def popupLoadSettings (current : Settings) : PopupLoadOutcome → Option Settings
  | PopupLoadOutcome.noStorage => some current
  | PopupLoadOutcome.timedOut => some current
  | PopupLoadOutcome.callbackError => some current
  | PopupLoadOutcome.success raw => some (validateSettings raw)
  | PopupLoadOutcome.thrown => some current

/-- The five random draws feeding one `generateMathProblem` call. -/
structure Draw where
  r1 : Nat
  r2 : Nat
  rop : Nat
  r3 : Nat
  r4 : Nat

/-- The `numProblems` independent `generateMathProblem()` calls of
content.js lines 246-248 (and of `handleTimerExpiration`, lines 345-349),
with `ds i` the draws of the i-th call. -/
def genProblems (n : Nat) (ds : Nat → Draw) : List Problem :=
  (List.range n).map
    (fun i => generateMathProblem (ds i).r1 (ds i).r2 (ds i).rop (ds i).r3 (ds i).r4)

/-- The state owned by one challenge modal (`showMathChallenge` closure):
the current problems with their stored correct answers, the current input
values, `timeRemaining`, and the settings captured at session start
(`currentSettings`), plus whether the error notice is showing. -/
structure SessionState where
  problems : List Problem
  inputs : List String
  timeRemaining : Int
  cfgNumProblems : Nat
  cfgTimeLimit : Int
  errorShown : Bool
deriving DecidableEq, Repr

/-- The whole content-script state:
* `challengeActive` — the module-level flag (content.js line 35);
* `session` — the challenge modal, `none` when no backdrop is attached;
* `timerLive` — the countdown interval handle (`timerInterval`) is set and
  not yet cleared;
* `debounces` — per input of the current modal, whether a 300 ms
  `validateTimeout` debounce is pending;
* `staleDebounces` — pending debounce timeouts whose inputs were already
  detached by a teardown (the source never clears these handles);
* `pendingLoads` — click-handler continuations waiting on `loadSettings()`;
* `successPending` — scheduled 800 ms post-success teardown timeouts;
* `replayPending` — scheduled 500 ms (`MODAL_ANIMATION_DELAY`) replay
  timeouts of the success callback;
* `cooldownPending` — scheduled 3000 ms (`CHALLENGE_TIMEOUT`) cooldown
  timeouts;
* `buttonMarked` — `button.dataset.gadiProtected` is set on the control;
* `settings` — the module-level `settings` variable. -/
structure MGState where
  challengeActive : Bool
  session : Option SessionState
  timerLive : Bool
  debounces : List Bool
  staleDebounces : Nat
  pendingLoads : Nat
  successPending : Nat
  replayPending : Nat
  cooldownPending : Nat
  buttonMarked : Bool
  settings : Settings
deriving DecidableEq, Repr

/-- Observable actions of one event:
* `suppressed` — the load continuation called `event.preventDefault()`,
  `stopPropagation()` and `stopImmediatePropagation()` (content.js lines
  191-193) on the event object of its click.  That dispatch has already
  completed by the time the continuation runs, so the calls record the
  code's intent but do not stop the host's send handling;
* `sessionStarted` — a challenge modal was built and attached;
* `allowed` — the continuation returned without calling the suppression
  functions (gate decided not to intercept);
* `errorNotice` / `expiredNotice` — the inline notices of `checkAllAnswers`
  failure and of `handleTimerExpiration`;
* `successCallback` — `onSuccess()` was invoked;
* `sendDispatched` — a click dispatch on the wired control completed with
  its default action unprevented, so the host page's own send handling ran.
  `step` emits it for the dispatcher's programmatic `button.click()`
  (a full synchronous dispatch inside the replay callback); for a
  user-initiated click it is accounted by `clickDispatch`. -/
inductive Out
  | suppressed
  | sessionStarted
  | allowed
  | errorNotice
  | expiredNotice
  | successCallback
  | sendDispatched
deriving DecidableEq, BEq, Repr

/-- The events (JavaScript callbacks) of the content script:
* `click` — the synchronous body of the wired send-control listener
  (content.js lines 174-181): the `challengeActive` guard and, when it
  passes, starting `loadSettings()` and registering its continuation.
  Nothing here prevents the dispatch's default action; the completion of
  the whole dispatch is `clickDispatch`;
* `loadResolved o hour ds` — the `loadSettings().then` continuation
  (lines 181-209), with the store outcome, the wall-clock hour and the
  random draws for the problems of a freshly opened session.  It runs in
  a later task, after the click dispatch that scheduled it has completed,
  so its suppression calls (lines 191-193) come too late to affect that
  dispatch;
* `typeInput i v` — the i-th answer input's `input` listener
  (lines 471-476);
* `debounceFire i` — that input's 300 ms `validateTimeout` fires;
* `staleDebounceFire` — a debounce timeout of an already-detached input
  fires;
* `submit` — the submit-button click or Enter on the last input, running
  `checkAllAnswers` (lines 554-601);
* `tick ds` — the one-second countdown interval (lines 379-386), with
  draws for `handleTimerExpiration`'s regenerated problems;
* `successFire` — the 800 ms post-success timeout (lines 576-580);
* `cancel` — the backdrop click listener with `e.target === backdrop`
  (lines 604-612);
* `replayFire` — the 500 ms replay timeout of the success callback
  (lines 200-208), which unmarks the control and programmatically clicks
  it (the dispatched click runs the wired listener synchronously);
* `cooldownFire` — the 3000 ms cooldown timeout (lines 204-207). -/
inductive Ev
  | click
  | loadResolved (o : StoreLoadOutcome) (hour : Nat) (ds : Nat → Draw)
  | typeInput (i : Nat) (v : String)
  | debounceFire (i : Nat)
  | staleDebounceFire
  | submit
  | tick (ds : Nat → Draw)
  | successFire
  | cancel
  | replayFire
  | cooldownFire

/-- The fresh session `showMathChallenge` builds (content.js lines 237-248
and 328-341): `numProblems` generated problems, empty inputs,
`timeRemaining = timeLimit`, and the settings captured by the closure. -/
def initSession (st : Settings) (ds : Nat → Draw) : SessionState :=
  { problems := genProblems st.numProblems.toNat ds
    inputs := List.replicate st.numProblems.toNat ""
    timeRemaining := st.timeLimit
    cfgNumProblems := st.numProblems.toNat
    cfgTimeLimit := st.timeLimit
    errorShown := false }

/-- One event handled atomically on the single thread. -/
def step (s : MGState) : Ev → MGState × List Out
  | Ev.click =>
    -- lines 174-181: `if (challengeActive) return;` then `loadSettings().then(...)`.
    -- The handler suspends here; no suppression happens before the continuation.
    if s.challengeActive then (s, [])
    else ({ s with pendingLoads := s.pendingLoads + 1 }, [])
  | Ev.loadResolved o hour ds =>
    if s.pendingLoads = 0 then (s, [])
    else
      match contentLoadSettings s.settings o with
      | none => (s, [])  -- the store never called back: this continuation never runs
      | some st =>
        let s1 := { s with pendingLoads := s.pendingLoads - 1, settings := st }
        if !(shouldBeActive st hour) then (s1, [Out.allowed])
        else if s1.challengeActive then
          -- preventDefault/stopPropagation ran, but `showMathChallenge`'s
          -- entry guard (line 229) returns before building a second modal.
          (s1, [Out.suppressed])
        else
          ({ s1 with
              challengeActive := true
              session := some (initSession st ds)
              timerLive := decide (0 < st.timeLimit)
              debounces := List.replicate st.numProblems.toNat false },
            [Out.suppressed, Out.sessionStarted])
  | Ev.typeInput i v =>
    match s.session with
    | none => (s, [])
    | some ss =>
      -- lines 471-476: the value changes and the pending debounce is
      -- replaced by a fresh 300 ms one.
      ({ s with
          session := some { ss with inputs := ss.inputs.set i v }
          debounces := s.debounces.set i true }, [])
  | Ev.debounceFire i =>
    if s.debounces.getD i false then
      -- `validateInput` only restyles the input; the handle is spent.
      ({ s with debounces := s.debounces.set i false }, [])
    else (s, [])
  | Ev.staleDebounceFire =>
    if 0 < s.staleDebounces then
      -- the callback restyles an already-detached input and nothing else.
      ({ s with staleDebounces := s.staleDebounces - 1 }, [])
    else (s, [])
  | Ev.submit =>
    match s.session with
    | none => (s, [])
    | some ss =>
      if checkAllCorrect (ss.inputs.zip (ss.problems.map Problem.answer)) then
        -- lines 566-580: clear the countdown interval and schedule the
        -- 800 ms teardown; nothing stops a second submit from doing it again.
        ({ s with timerLive := false, successPending := s.successPending + 1 }, [])
      else
        -- lines 582-597: error notice, session stays as it is.
        ({ s with session := some { ss with errorShown := true } }, [Out.errorNotice])
  | Ev.tick ds =>
    match s.session with
    | none => (s, [])
    | some ss =>
      if !s.timerLive then (s, [])
      else
        let t := ss.timeRemaining - 1
        if t ≤ 0 then
          -- `handleTimerExpiration` (lines 344-376): regenerate all problems,
          -- clear all inputs, show the transient notice, reset the countdown
          -- to the session's configured `timeLimit`; the session stays up.
          ({ s with
              session := some { ss with
                problems := genProblems ss.cfgNumProblems ds
                inputs := List.replicate ss.cfgNumProblems ""
                timeRemaining := ss.cfgTimeLimit } },
            [Out.expiredNotice])
        else
          ({ s with session := some { ss with timeRemaining := t } }, [])
  | Ev.successFire =>
    if s.successPending = 0 then (s, [])
    else
      -- lines 576-580: `backdrop.remove(); challengeActive = false; onSuccess();`
      -- and `onSuccess` (lines 195-209) sets `challengeActive = true` and
      -- schedules the 500 ms replay.  Debounce handles are not cleared; their
      -- inputs are detached with the backdrop.
      ({ s with
          successPending := s.successPending - 1
          session := none
          staleDebounces := s.staleDebounces + s.debounces.count true
          debounces := []
          challengeActive := true
          replayPending := s.replayPending + 1 },
        [Out.successCallback])
  | Ev.cancel =>
    match s.session with
    | none => (s, [])
    | some _ =>
      -- lines 604-612: clear the countdown interval, remove the backdrop,
      -- reset the flag; the success callback is not invoked and debounce
      -- handles are not cleared.
      ({ s with
          timerLive := false
          session := none
          staleDebounces := s.staleDebounces + s.debounces.count true
          debounces := []
          challengeActive := false }, [])
  | Ev.replayFire =>
    if s.replayPending = 0 then (s, [])
    else
      -- lines 200-208: unmark the control, `button.click()` — the dispatched
      -- click synchronously runs the wired listener (guarded by
      -- `challengeActive`) and then the host's own send handling — and
      -- schedule the 3000 ms cooldown.
      let s1 := { s with replayPending := s.replayPending - 1, buttonMarked := false }
      let s2 :=
        if s1.challengeActive then s1
        else { s1 with pendingLoads := s1.pendingLoads + 1 }
      ({ s2 with cooldownPending := s2.cooldownPending + 1 }, [Out.sendDispatched])
  | Ev.cooldownFire =>
    if s.cooldownPending = 0 then (s, [])
    else
      -- lines 204-207: drop the flag and re-mark the control as handled.
      ({ s with
          cooldownPending := s.cooldownPending - 1
          challengeActive := false
          buttonMarked := true }, [])

/-- One full user-initiated click dispatch on the wired send control, as
the browser runs it.  The capture-phase listener body (`Ev.click`,
content.js lines 174-181) runs first: it either returns (flag set) or
starts `loadSettings()` and registers the `.then` continuation.  The
suppression calls (lines 191-193) are only inside that continuation, and
`chrome.storage.sync.get` is asynchronous, so the continuation runs in a
later task: the dispatch finishes with its default action never
prevented, and the host page's own send handling runs
(`Out.sendDispatched`) before the continuation can decide anything. -/
def clickDispatch (s : MGState) : MGState × List Out :=
  let (s1, o1) := step s Ev.click
  (s1, o1 ++ [Out.sendDispatched])

/-- Run a list of events, collecting the outputs in order. -/
def runEvents (s : MGState) : List Ev → MGState × List Out
  | [] => (s, [])
  | e :: es =>
    let (s1, o1) := step s e
    let (s2, o2) := runEvents s1 es
    (s2, o1 ++ o2)

/-- The content script's state after initialization: no session, no flag,
no pending timers, the send control wired and marked, default settings. -/
def initState : MGState :=
  { challengeActive := false
    session := none
    timerLive := false
    debounces := []
    staleDebounces := 0
    pendingLoads := 0
    successPending := 0
    replayPending := 0
    cooldownPending := 0
    buttonMarked := true
    settings := defaultSettings }

/-- A fixed random stream: every draw is 0, so every generated problem is
the addition problem `5 + 5 = 10`. -/
def dZero : Nat → Draw := fun _ => ⟨0, 0, 0, 0, 0⟩

/-- A stored configuration of one problem and a 5 second time limit. -/
def raw15 : RawSettings :=
  { enabled := true, nightMode := false, numProblems := some 1, timeLimit := some 5 }

/-- The race of two rapid submit activations: one session is opened with one
problem (answer 10), the answer is typed, the submit trigger fires twice
before the 800 ms teardown, and both scheduled teardown timeouts fire. -/
def doubleSubmitTrace : List Ev :=
  [Ev.click, Ev.loadResolved (StoreLoadOutcome.success raw15) 12 dZero,
   Ev.typeInput 0 "10", Ev.submit, Ev.submit, Ev.successFire, Ev.successFire]

/-- The double-submit run followed by both scheduled replay timeouts. -/
def doubleReplayTrace : List Ev := doubleSubmitTrace ++ [Ev.replayFire, Ev.replayFire]

/-- One session is opened, an answer is typed (arming the 300 ms debounce
timeout), and the session is cancelled by a backdrop click before the
debounce delay elapses. -/
def cancelWithDebounceTrace : List Ev :=
  [Ev.click, Ev.loadResolved (StoreLoadOutcome.success raw15) 12 dZero,
   Ev.typeInput 0 "7", Ev.cancel]

/-- A concrete open session whose one answer input is still blank. -/
def ss4 : SessionState :=
  { problems := [{ question := "5 + 5", answer := 10 }], inputs := [""],
    timeRemaining := 5, cfgNumProblems := 1, cfgTimeLimit := 5, errorShown := false }

/-- A concrete state with the session `ss4` active and its countdown live. -/
def s4 : MGState :=
  { initState with challengeActive := true, session := some ss4, timerLive := true }

/-- A concrete state right after a success callback: torn down, flag set,
one replay timeout pending. -/
def sReplay : MGState := { s4 with session := none, timerLive := false, replayPending := 1 }

/-- A concrete open session one tick away from expiry. -/
def ss9 : SessionState :=
  { problems := [{ question := "5 + 5", answer := 10 }], inputs := ["3"],
    timeRemaining := 1, cfgNumProblems := 1, cfgTimeLimit := 5, errorShown := false }

/-- A concrete state with the session `ss9` active and its countdown live. -/
def s9 : MGState :=
  { initState with challengeActive := true, session := some ss9, timerLive := true }

theorem answerEntryOk_iff (v : String) (c : Int) :
    answerEntryOk v c = true ↔ jsParseInt v = some c := by
  unfold answerEntryOk
  cases h : jsParseInt v <;> simp

/-- C1: evaluated at an intercept-deciding configuration, the code does not
suppress the host's send handling on the user's activation.  The full click
dispatch completes — with the host page's send handling running
(`sendDispatched`) — while the gate continuation is still pending and no
session exists; only afterwards does the continuation make the intercept
decision, call the now-ineffective
`preventDefault`/`stopPropagation`/`stopImmediatePropagation` and start the
Challenge Session.  The send therefore proceeds on the original activation,
before and independently of the dispatcher's replay. -/
theorem C1_host_send_precedes_gate :
    (clickDispatch initState).2 = [Out.sendDispatched] ∧
    (clickDispatch initState).1.session = none ∧
    (clickDispatch initState).1.pendingLoads = 1 ∧
    (step (clickDispatch initState).1
        (Ev.loadResolved (StoreLoadOutcome.success raw15) 12 dZero)).2 =
      [Out.suppressed, Out.sessionStarted] ∧
    (step (clickDispatch initState).1
        (Ev.loadResolved (StoreLoadOutcome.success raw15) 12 dZero)).1.session.isSome =
      true := by
  decide

/-- C2: on the code, a submission with every answer correct does NOT fire
the success callback exactly once under rapid repeated submit triggers:
in a run with exactly one session started, two submit activations before
teardown fire the success callback twice (`checkAllAnswers` schedules a
fresh teardown timeout on every call, and each one calls `onSuccess`). -/
theorem C2_success_callback_fires_twice :
    (runEvents initState doubleSubmitTrace).2.count Out.successCallback = 2 ∧
    (runEvents initState doubleSubmitTrace).2.count Out.sessionStarted = 1 := by
  decide

/-- C3: `validateSettings` does not keep a stored `timeLimit` of 0:
`parseInt(raw.timeLimit) || 60` treats the falsy 0 as absent, so the
in-range stored value 0 (documented as "unlimited") comes back as 60. -/
theorem C3_timeLimit_zero_becomes_default :
    validateSettings
        { enabled := true, nightMode := false, numProblems := some 3, timeLimit := some 0 } =
      { enabled := true, nightMode := false, numProblems := 3, timeLimit := 60 } := rfl

/-- C4: `checkAllAnswers` succeeds iff every input parses as an integer equal
to its problem's stored answer; blank or non-numeric input fails (it is not
coerced); on success the countdown is cleared and the Passed teardown is
scheduled; on failure only the error notice state changes — the session
stays up and editable and the problems are untouched. -/
theorem C4_checkAllAnswers (s : MGState) (ss : SessionState)
    (hS : s.session = some ss) :
    (checkAllCorrect (ss.inputs.zip (ss.problems.map Problem.answer)) = true ↔
      ∀ p ∈ ss.inputs.zip (ss.problems.map Problem.answer), jsParseInt p.1 = some p.2) ∧
    (∀ c : Int, answerEntryOk "" c = false) ∧
    (∀ c : Int, answerEntryOk "abc" c = false) ∧
    (checkAllCorrect (ss.inputs.zip (ss.problems.map Problem.answer)) = true →
      step s Ev.submit =
        ({ s with timerLive := false, successPending := s.successPending + 1 }, [])) ∧
    (checkAllCorrect (ss.inputs.zip (ss.problems.map Problem.answer)) = false →
      step s Ev.submit =
        ({ s with session := some { ss with errorShown := true } }, [Out.errorNotice])) := by
  refine ⟨?_, ?_, ?_, ?_, ?_⟩
  · simp [checkAllCorrect, List.all_eq_true, answerEntryOk_iff]
  · intro c; rfl
  · intro c; rfl
  · intro hc; simp [step, hS, hc]
  · intro hc; simp [step, hS, hc]

theorem C4_witness :
    step s4 Ev.submit =
      ({ s4 with session := some { ss4 with errorShown := true } }, [Out.errorNotice]) :=
  (C4_checkAllAnswers s4 ss4 rfl).2.2.2.2 (by decide)

/-- C5 counterexample: the gating-path `loadSettings` of content.js installs
no timeout, so a `chrome.storage.sync.get` whose callback never arrives
(in particular one exceeding 3000 ms forever) never resolves the load —
the gating decision does not complete. -/
theorem C5_cex_gating_load_never_resolves :
    contentLoadSettings defaultSettings StoreLoadOutcome.neverCalls = none := rfl

/-- C5 (amended): on the gating path a missing store, a store error or a
thrown exception resolves the load with the last-known settings and a
successful read resolves with the validated stored values, so those
decisions complete; and every outcome of the popup's load path — which is
the path with the 3000 ms timeout — resolves. -/
theorem C5_load_fallbacks (current : Settings) (o : StoreLoadOutcome)
    (h : o ≠ StoreLoadOutcome.neverCalls) :
    (contentLoadSettings current o).isSome = true ∧
    contentLoadSettings current StoreLoadOutcome.unavailable = some current ∧
    contentLoadSettings current StoreLoadOutcome.callbackError = some current ∧
    contentLoadSettings current StoreLoadOutcome.thrown = some current ∧
    (∀ raw, contentLoadSettings current (StoreLoadOutcome.success raw) =
      some (validateSettings raw)) ∧
    (∀ po : PopupLoadOutcome, (popupLoadSettings current po).isSome = true) := by
  refine ⟨?_, rfl, rfl, rfl, fun _ => rfl, fun po => by cases po <;> rfl⟩
  cases o <;> first | rfl | exact absurd rfl h

theorem C5_witness :
    (contentLoadSettings defaultSettings StoreLoadOutcome.unavailable).isSome = true :=
  (C5_load_fallbacks defaultSettings StoreLoadOutcome.unavailable (by decide)).1

/-- C6 counterexample: after the cancel exit path the session is torn down
but the pending debounced-validation timeout was not cleared — one stale
debounce handle survives the teardown (and will fire against the detached
input), so not every timer handle owned by the session is cleared on every
exit path. -/
theorem C6_cex_debounce_survives_teardown :
    (runEvents initState cancelWithDebounceTrace).1.session = none ∧
    (runEvents initState cancelWithDebounceTrace).1.staleDebounces = 1 := by
  decide

/-- C6 (amended): on the pass and cancel exit paths the one-second countdown
interval is cleared, but pending debounced-validation timeouts are not
cleared at teardown: every one of them survives the cancel teardown as a
stale handle. -/
theorem C6_timers_on_teardown (s : MGState) (ss : SessionState)
    (hS : s.session = some ss) :
    (step s Ev.cancel).1.timerLive = false ∧
    (step s Ev.cancel).1.session = none ∧
    (step s Ev.cancel).1.staleDebounces = s.staleDebounces + s.debounces.count true ∧
    (checkAllCorrect (ss.inputs.zip (ss.problems.map Problem.answer)) = true →
      (step s Ev.submit).1.timerLive = false) := by
  refine ⟨?_, ?_, ?_, fun hc => ?_⟩
  · simp [step, hS]
  · simp [step, hS]
  · simp [step, hS]
  · simp [step, hS, hc]

theorem C6_witness : (step s4 Ev.cancel).1.timerLive = false :=
  (C6_timers_on_teardown s4 ss4 rfl).1

/-- C7: activation is idempotent while a session is Active — the wired
click handler is a no-op when `challengeActive` is set — and two clicks in
quick succession whose asynchronous configuration loads are both in flight
still open only one session (the second continuation is stopped by
`showMathChallenge`'s entry guard). -/
theorem C7_at_most_one_session (s : MGState) (hA : s.challengeActive = true) :
    step s Ev.click = (s, []) ∧
    (runEvents initState
        [Ev.click, Ev.click,
         Ev.loadResolved (StoreLoadOutcome.success raw15) 12 dZero,
         Ev.loadResolved (StoreLoadOutcome.success raw15) 12 dZero]).2.count
      Out.sessionStarted = 1 := by
  exact ⟨by simp [step, hA], by decide⟩

theorem C7_witness : step s4 Ev.click = (s4, []) :=
  (C7_at_most_one_session s4 rfl).1

/-- C8 counterexample: replay is NOT at most once per successful session —
in a run with exactly one session started, two rapid submit activations
fire the success callback twice and the dispatcher replays the send twice. -/
theorem C8_cex_two_replays_one_session :
    (runEvents initState doubleReplayTrace).2.count Out.sendDispatched = 2 ∧
    (runEvents initState doubleReplayTrace).2.count Out.sessionStarted = 1 := by
  decide

/-- C8 (amended): each replay timeout of the dispatcher dispatches the real
click exactly once, unmarks the control and schedules the cooldown; because
`challengeActive` is still set, the programmatic replay is not re-intercepted
(no session is opened and no configuration load starts); and after the
cooldown fires the control is re-marked, the flag drops, and the next click
is intercepted again.  Replay is once per success-callback invocation — not
at most once per successful session. -/
theorem C8_replay_and_rearm (s : MGState)
    (hR : 0 < s.replayPending) (hA : s.challengeActive = true) :
    (step s Ev.replayFire).2 = [Out.sendDispatched] ∧
    (step s Ev.replayFire).1.buttonMarked = false ∧
    (step s Ev.replayFire).1.cooldownPending = s.cooldownPending + 1 ∧
    (step s Ev.replayFire).1.session = s.session ∧
    (step s Ev.replayFire).1.pendingLoads = s.pendingLoads ∧
    (∀ t : MGState, 0 < t.cooldownPending →
      (step t Ev.cooldownFire).1.buttonMarked = true ∧
      (step t Ev.cooldownFire).1.challengeActive = false ∧
      (step (step t Ev.cooldownFire).1 Ev.click).1.pendingLoads =
        (step t Ev.cooldownFire).1.pendingLoads + 1) := by
  have hR' : ¬ s.replayPending = 0 := Nat.pos_iff_ne_zero.mp hR
  refine ⟨?_, ?_, ?_, ?_, ?_, fun t ht => ?_⟩
  all_goals simp [step, hR', hA]
  have ht' : ¬ t.cooldownPending = 0 := Nat.pos_iff_ne_zero.mp ht
  simp [step, ht']

theorem C8_witness : (step sReplay Ev.replayFire).2 = [Out.sendDispatched] :=
  (C8_replay_and_rearm sReplay (by decide) rfl).1

/-- C9: a countdown tick that brings the remaining time to zero regenerates
all problems from fresh draws, clears every answer input, shows the
transient notice, resets the remaining time to the session's full configured
limit and keeps the session Active; the success callback is not among the
outputs.  Moreover the countdown is live on session entry exactly when the
configured time limit is positive. -/
theorem C9_expiry_renews (s : MGState) (ss : SessionState) (ds : Nat → Draw)
    (hS : s.session = some ss) (hT : s.timerLive = true)
    (hZ : ss.timeRemaining ≤ 1) :
    step s (Ev.tick ds) =
      ({ s with session := some { ss with
            problems := genProblems ss.cfgNumProblems ds
            inputs := List.replicate ss.cfgNumProblems ""
            timeRemaining := ss.cfgTimeLimit } },
        [Out.expiredNotice]) ∧
    (∀ (t : MGState) (st : Settings) (o : StoreLoadOutcome) (hour : Nat)
        (ds2 : Nat → Draw),
      t.challengeActive = false → 0 < t.pendingLoads →
      contentLoadSettings t.settings o = some st →
      shouldBeActive st hour = true →
      (step t (Ev.loadResolved o hour ds2)).1.timerLive = decide (0 < st.timeLimit)) := by
  constructor
  · simp [step, hS, hT, show ss.timeRemaining - 1 ≤ 0 by omega]
  · intro t st o hour ds2 hcA hp hres hact
    have hp' : ¬ t.pendingLoads = 0 := Nat.pos_iff_ne_zero.mp hp
    simp [step, hp', hres, hact, hcA]

theorem C9_witness : (step s9 (Ev.tick dZero)).2 = [Out.expiredNotice] := by
  rw [(C9_expiry_renews s9 ss9 dZero rfl rfl (by decide)).1]

/-- C10: every generated problem satisfies the generator contract: there are
an operator and operands with which the displayed question and the stored
answer both agree; a subtraction problem is presented and computed as
(larger − smaller), so its answer is `max − min ≥ 0` of the two drawn
operands; and a multiplication problem draws both operands from 2–13. -/
theorem C10_generator_contract (r1 r2 rop r3 r4 : Nat) :
    ∃ (op : Op) (a b : Int),
      (generateMathProblem r1 r2 rop r3 r4).question = renderQuestion op a b ∧
      (generateMathProblem r1 r2 rop r3 r4).answer = denoteOp op a b ∧
      (op = Op.sub →
        a = max (((r1 % 25 : Nat) : Int) + 5) (((r2 % 25 : Nat) : Int) + 5) ∧
        b = min (((r1 % 25 : Nat) : Int) + 5) (((r2 % 25 : Nat) : Int) + 5) ∧
        (generateMathProblem r1 r2 rop r3 r4).answer = a - b ∧
        0 ≤ (generateMathProblem r1 r2 rop r3 r4).answer) ∧
      (op = Op.mul → 2 ≤ a ∧ a ≤ 13 ∧ 2 ≤ b ∧ b ≤ 13) := by
  have h : rop % 3 = 0 ∨ rop % 3 = 1 ∨ rop % 3 = 2 := by omega
  rcases h with h | h | h
  · exact ⟨Op.add, ((r1 % 25 : Nat) : Int) + 5, ((r2 % 25 : Nat) : Int) + 5,
      by simp [generateMathProblem, h, renderQuestion],
      by simp [generateMathProblem, h, denoteOp],
      by simp, by simp⟩
  · refine ⟨Op.sub, max (((r1 % 25 : Nat) : Int) + 5) (((r2 % 25 : Nat) : Int) + 5),
      min (((r1 % 25 : Nat) : Int) + 5) (((r2 % 25 : Nat) : Int) + 5),
      by simp [generateMathProblem, h, renderQuestion],
      by simp [generateMathProblem, h, denoteOp],
      fun _ => ⟨rfl, rfl, by simp [generateMathProblem, h, denoteOp],
        by simp [generateMathProblem, h]⟩,
      by simp⟩
  · refine ⟨Op.mul, ((r3 % 12 : Nat) : Int) + 2, ((r4 % 12 : Nat) : Int) + 2,
      by simp [generateMathProblem, h, renderQuestion],
      by simp [generateMathProblem, h, denoteOp],
      by simp, fun _ => ?_⟩
    have h3 : r3 % 12 < 12 := Nat.mod_lt _ (by norm_num)
    have h4 : r4 % 12 < 12 := Nat.mod_lt _ (by norm_num)
    refine ⟨by omega, by omega, by omega, by omega⟩
